import Mathlib

/-!
Verification of the SSD1306 OLED status-display demo (`C/display.c`).

The program parses command-line arguments for a debug flag, loads a display
configuration (four boolean screen toggles, all defaulting to enabled), builds
a rotation list of enabled screen identifiers, initializes the display driver,
and then loops forever rendering the screens in rotation with fixed delays.

We embed `main` as a pure function producing the list of external-effect
events up to the point where the rotation loop is reached (or the process
exits), plus an `Outcome` recording whether the process exits (with which
code) or enters the infinite rotation loop (with which loop state).  The
rotation loop itself is modelled by a step function on the loop state and a
per-iteration event list.  External collaborators are modelled as oracle
inputs: `loadResult` is what `load_display_config` produces (`none` = load
failure, leaving the caller's `{1,1,1,1}` initializer in place), and `i2cd`
is the I2C handle visible after `ssd1306_begin`.
-/

/-- The four boolean flags of `struct DisplayConfig`. -/
structure DisplayConfig where
  show_temperature : Bool
  show_cpu_memory : Bool
  show_sd_memory : Bool
  show_hostname : Bool
deriving DecidableEq, Repr

/-- Observable external operations performed by `main`, in program order. -/
inductive Event where
  | loadConfig (path : String) (debug : Bool)
  | warnDefault
  | ssdBegin
  | printI2cError
  | usleepMicros (n : Nat)
  | firstGetIp
  | lcdDisplayHostname
  | sleepSecs (n : Nat)
  | lcdDisplay (id : Nat)
deriving DecidableEq, Repr

/-- State carried across iterations of the rotation loop: the rotation list
`display_order` (its first `display_count` C-array entries) and the cursor
`idx`. -/
structure LoopState where
  display_order : List Nat
  idx : Nat
deriving DecidableEq, Repr

/-- How `main` ends up: either the process returns (with an exit code), or it
enters the infinite rotation loop in the given state. -/
inductive Outcome where
  | exited (code : Int)
  | looping (s : LoopState)
deriving DecidableEq, Repr

/-- One argument matches the debug test `strcmp(argv[i], "-d") == 0 ||
strcmp(argv[i], "--debug") == 0`. -/
def dbgFlag (a : String) : Bool :=
  a == "-d" || a == "--debug"

/-- The argument-scanning loop of `main`: starting from the current value of
`debug`, each argument sets `debug` to `true` when it matches, else leaves it
unchanged; the scan always runs to the end of the argument list. -/
def parseDebugLoop : Bool → List String → Bool
  | debug, [] => debug
  | debug, a :: rest =>
      parseDebugLoop (if dbgFlag a then true else debug) rest

/-- The debug flag computed by `main` from `argv[1..]` (initial value
`false`). -/
def parseDebug (args : List String) : Bool :=
  parseDebugLoop false args

/-- The configuration in effect after the `load_display_config` call: on
success the loaded value, on failure the `{1,1,1,1}` initializer is left in
place. -/
def mainConfig : Option DisplayConfig → DisplayConfig
  | some c => c
  | none =>
      { show_temperature := true, show_cpu_memory := true
        show_sd_memory := true, show_hostname := true }

/-- The warning printed exactly when `load_display_config` fails. -/
def warnEvents : Option DisplayConfig → List Event
  | some _ => []
  | none => [Event.warnDefault]

/-- The rotation list built by the four `if (config.show_*)
display_order[display_count++] = k;` statements, in their fixed program
order. -/
def buildOrder (c : DisplayConfig) : List Nat :=
  (if c.show_temperature then [0] else []) ++
  (if c.show_cpu_memory then [1] else []) ++
  (if c.show_sd_memory then [2] else []) ++
  (if c.show_hostname then [3] else [])

/-- Screen `i` is enabled by configuration `c`.  This is the spec's reading
of the flag-to-identifier table {temperature=0, cpu_memory=1, sd_memory=2,
hostname=3}. -/
def screenEnabled (c : DisplayConfig) : Nat → Bool
  | 0 => c.show_temperature
  | 1 => c.show_cpu_memory
  | 2 => c.show_sd_memory
  | 3 => c.show_hostname
  | _ => false

/-- The events `main` performs before the rotation loop is reached (or the
process exits early).  `args` is `argv[1..]`, `loadResult` the oracle for
`load_display_config`, `i2cd` the I2C handle observed after
`ssd1306_begin`. -/
def setupEvents (args : List String) (loadResult : Option DisplayConfig)
    (i2cd : Int) : List Event :=
  [Event.loadConfig "display.cfg" (parseDebug args)] ++ warnEvents loadResult ++
  [Event.ssdBegin] ++
  (if i2cd < 0 then
    [Event.printI2cError]
  else
    [Event.usleepMicros (150 * 1000), Event.firstGetIp] ++
    (if (mainConfig loadResult).show_hostname then
      [Event.lcdDisplayHostname, Event.sleepSecs 3]
    else []))

/-- How `main` ends: early `return 0` if the I2C handle is invalid, `return 0`
after setup if the rotation list is empty (the `while(display_count > 0)`
condition fails upfront), and otherwise the infinite rotation loop starting
at cursor `0`. -/
def mainOutcome (args : List String) (loadResult : Option DisplayConfig)
    (i2cd : Int) : Outcome :=
  if i2cd < 0 then
    Outcome.exited 0
  else if 0 < (buildOrder (mainConfig loadResult)).length then
    Outcome.looping { display_order := buildOrder (mainConfig loadResult), idx := 0 }
  else
    Outcome.exited 0

/-- The screen identifier read by `LCD_Display(display_order[idx])`. -/
def renderOf (s : LoopState) : Nat :=
  s.display_order.getD s.idx 0

/-- State update of one rotation-loop iteration:
`idx = (idx + 1) % display_count`. -/
def stepState (s : LoopState) : LoopState :=
  { display_order := s.display_order
    idx := (s.idx + 1) % s.display_order.length }

/-- Loop state after `k` iterations. -/
def iterState : Nat → LoopState → LoopState
  | 0, s => s
  | k + 1, s => iterState k (stepState s)

/-- Events of one rotation-loop iteration: render the screen at the cursor,
then `sleep(1)` three times. -/
def loopIterEvents (s : LoopState) : List Event :=
  [Event.lcdDisplay (renderOf s), Event.sleepSecs 1, Event.sleepSecs 1,
   Event.sleepSecs 1]

/-- Modelled from the spec: one rotation-loop iteration as the spec phrases
it, rendering the screen at the cursor and then pausing once for 3 time
units. -/
def loopIterEventsSpec (s : LoopState) : List Event :=
  [Event.lcdDisplay (renderOf s), Event.sleepSecs 3]

/-- Seconds slept by one event. -/
def sleepSecsOf : Event → Nat
  | Event.sleepSecs n => n
  | _ => 0

/-- Total seconds slept across a list of events. -/
def sleepTotal (evs : List Event) : Nat :=
  (evs.map sleepSecsOf).sum

/-- The event is the config-load call. -/
def isLoadConfig : Event → Bool
  | Event.loadConfig _ _ => true
  | _ => false

/-- The event is the config-failure warning. -/
def isWarn : Event → Bool
  | Event.warnDefault => true
  | _ => false

/-- The event is the driver initialization call `ssd1306_begin`. -/
def isSsdBegin : Event → Bool
  | Event.ssdBegin => true
  | _ => false

/-- The event is the one-time hostname splash `LCD_DisplayHostname()`. -/
def isHostnameRender : Event → Bool
  | Event.lcdDisplayHostname => true
  | _ => false

/-- The event is a rendering call (`LCD_Display` or `LCD_DisplayHostname`). -/
def isRenderCall : Event → Bool
  | Event.lcdDisplay _ => true
  | Event.lcdDisplayHostname => true
  | _ => false

/-! ## Helper lemmas -/

theorem parseDebugLoop_eq (l : List String) :
    ∀ d : Bool, parseDebugLoop d l = (d || l.any dbgFlag) := by
  induction l with
  | nil => intro d; simp [parseDebugLoop]
  | cons a rest ih =>
      intro d
      rw [parseDebugLoop, ih]
      cases h : dbgFlag a <;> simp [h, Bool.or_assoc]

theorem iterState_order (k : Nat) (s : LoopState) :
    (iterState k s).display_order = s.display_order := by
  induction k generalizing s with
  | zero => rfl
  | succ k ih => rw [iterState, ih]; rfl

theorem iterState_idx (order : List Nat) (k : Nat) :
    ∀ i, i < order.length →
      (iterState k { display_order := order, idx := i }).idx =
        (i + k) % order.length := by
  induction k with
  | zero =>
      intro i hi
      simp [iterState, Nat.mod_eq_of_lt hi]
  | succ k ih =>
      intro i hi
      have hpos : 0 < order.length := Nat.lt_of_le_of_lt (Nat.zero_le i) hi
      rw [iterState, stepState]
      have h1 : (i + 1) % order.length < order.length := Nat.mod_lt _ hpos
      rw [ih _ h1, Nat.mod_add_mod]
      congr 1
      omega

theorem map_getD_range (l : List Nat) :
    (List.range l.length).map (fun j => l.getD j 0) = l := by
  induction l with
  | nil => rfl
  | cons a t ih =>
      rw [List.length_cons, List.range_succ_eq_map, List.map_cons,
        List.map_map]
      have h : ((fun j => (a :: t).getD j 0) ∘ Nat.succ) =
          (fun j => t.getD j 0) := by
        funext j
        simp [List.getD_cons_succ]
      simp only [List.getD_cons_zero, h]
      rw [ih]

theorem mem_buildOrder_hostname (c : DisplayConfig)
    (h : c.show_hostname = true) : 3 ∈ buildOrder c := by
  simp [buildOrder, h]

theorem buildOrder_length_le (c : DisplayConfig) :
    (buildOrder c).length ≤ 4 := by
  rcases c with ⟨t, u, v, w⟩
  cases t <;> cases u <;> cases v <;> cases w <;> decide

/-! ## Claims -/

/-- Claim C1: for every combination of the four DisplayConfig flags, the
rotation list contains exactly the identifiers of the enabled screens, in the
fixed priority order temperature=0, cpu_memory=1, sd_memory=2, hostname=3,
and nothing else; in particular the flags (true, false, true, false) yield
the list [0, 2]. -/
theorem rotation_list_exactly_enabled (c : DisplayConfig) :
    buildOrder c = (List.range 4).filter (fun i => screenEnabled c i) ∧
    buildOrder
        { show_temperature := true, show_cpu_memory := false
          show_sd_memory := true, show_hostname := false } = [0, 2] := by
  constructor
  · rcases c with ⟨t, u, v, w⟩
    cases t <;> cases u <;> cases v <;> cases w <;> decide
  · decide

/-- Claim C8: each rotation-loop iteration renders the screen at the cursor
and then sleeps 1 second three times; this refines the spec's single 3-unit
pause: both versions perform the same rendering calls and sleep the same
total duration, namely 3 units, on every iteration. -/
theorem triple_sleep_refines_single_pause (s : LoopState) :
    loopIterEvents s =
      [Event.lcdDisplay (renderOf s), Event.sleepSecs 1, Event.sleepSecs 1,
       Event.sleepSecs 1] ∧
    (loopIterEvents s).filter isRenderCall =
      (loopIterEventsSpec s).filter isRenderCall ∧
    sleepTotal (loopIterEvents s) = sleepTotal (loopIterEventsSpec s) ∧
    sleepTotal (loopIterEvents s) = 3 := by
  refine ⟨rfl, ?_, rfl, rfl⟩
  simp [loopIterEvents, loopIterEventsSpec, isRenderCall, List.filter]

/-- Claim C2: for every non-empty rotation list, the loop cursor after `k`
iterations is `k` modulo the list length, the screen rendered at iteration
`k` is the list entry at that cursor, the cursor reaches the last index and
wraps back to 0, and the screens rendered during any full cycle of
`length` consecutive iterations are exactly the rotation list, each entry
once, in order. -/
theorem rotation_cursor_cycles (order : List Nat) (h : 0 < order.length)
    (k m : Nat) :
    (iterState k { display_order := order, idx := 0 }).idx =
      k % order.length ∧
    renderOf (iterState k { display_order := order, idx := 0 }) =
      order.getD (k % order.length) 0 ∧
    (iterState (order.length - 1) { display_order := order, idx := 0 }).idx =
      order.length - 1 ∧
    (iterState order.length { display_order := order, idx := 0 }).idx = 0 ∧
    (List.range order.length).map
        (fun j => renderOf (iterState (m * order.length + j)
          { display_order := order, idx := 0 })) = order := by
  have hidx : ∀ j : Nat,
      (iterState j { display_order := order, idx := 0 }).idx =
        j % order.length := by
    intro j
    have := iterState_idx order j 0 h
    simpa using this
  have hrender : ∀ j : Nat,
      renderOf (iterState j { display_order := order, idx := 0 }) =
        order.getD (j % order.length) 0 := by
    intro j
    rw [renderOf, iterState_order, hidx]
  refine ⟨hidx k, hrender k, ?_, ?_, ?_⟩
  · rw [hidx]
    exact Nat.mod_eq_of_lt (Nat.sub_lt h Nat.one_pos)
  · rw [hidx, Nat.mod_self]
  · have hcong : ∀ j ∈ List.range order.length,
        renderOf (iterState (m * order.length + j)
          { display_order := order, idx := 0 }) = order.getD j 0 := by
      intro j hj
      rw [hrender, Nat.mul_comm m order.length, Nat.mul_add_mod,
        Nat.mod_eq_of_lt (List.mem_range.mp hj)]
    rw [List.map_congr_left hcong, map_getD_range]

/-- Witness for C2 at the rotation list [0, 2], three iterations in. -/
theorem rotation_cursor_cycles_witness :
    0 < ([0, 2] : List Nat).length ∧
    (iterState 3 { display_order := [0, 2], idx := 0 }).idx =
      3 % ([0, 2] : List Nat).length :=
  ⟨by decide, (rotation_cursor_cycles [0, 2] (by decide) 3 1).1⟩

/-- Claim C9: the rotation list never exceeds the 4-element capacity of
`display_order`, and throughout the loop the cursor stays strictly below the
list length, so every array access is in bounds. -/
theorem array_accesses_in_bounds (c : DisplayConfig) (order : List Nat)
    (k : Nat) (h : 0 < order.length) :
    (buildOrder c).length ≤ 4 ∧
    (iterState k { display_order := order, idx := 0 }).idx <
      order.length := by
  refine ⟨buildOrder_length_le c, ?_⟩
  have hk := iterState_idx order k 0 h
  simp only [Nat.zero_add] at hk
  rw [hk]
  exact Nat.mod_lt _ h

/-- Witness for C9 at the all-enabled configuration and list [0,1,2,3]. -/
theorem array_accesses_in_bounds_witness :
    0 < ([0, 1, 2, 3] : List Nat).length ∧
    ((buildOrder ⟨true, true, true, true⟩).length ≤ 4 ∧
     (iterState 5 { display_order := [0, 1, 2, 3], idx := 0 }).idx <
       ([0, 1, 2, 3] : List Nat).length) :=
  ⟨by decide,
   array_accesses_in_bounds ⟨true, true, true, true⟩ [0, 1, 2, 3] 5
     (by decide)⟩

/-- Claim C10: the debug flag is true exactly when some argument equals
"-d" or "--debug", and two argument lists yielding the same debug flag give
the same startup trace and the same outcome, so other arguments are
silently ignored. -/
theorem debug_flag_from_args (args args2 : List String)
    (lr : Option DisplayConfig) (i2cd : Int)
    (h : parseDebug args = parseDebug args2) :
    parseDebug args = args.any (fun a => a == "-d" || a == "--debug") ∧
    setupEvents args lr i2cd = setupEvents args2 lr i2cd ∧
    mainOutcome args lr i2cd = mainOutcome args2 lr i2cd := by
  refine ⟨?_, ?_, rfl⟩
  · rw [parseDebug, parseDebugLoop_eq, Bool.false_or]
    rfl
  · simp [setupEvents, h]

/-- Witness for C10: "x" is ignored and "-d" anywhere sets the flag. -/
theorem debug_flag_from_args_witness :
    parseDebug ["x", "-d"] = parseDebug ["--debug", "y"] ∧
    parseDebug ["x", "-d"] =
      (["x", "-d"] : List String).any (fun a => a == "-d" || a == "--debug") :=
  ⟨by decide,
   (debug_flag_from_args ["x", "-d"] ["--debug", "y"] none 0 (by decide)).1⟩

/-- Claim C3: when the hostname flag is set and the I2C device opened, the
hostname screen is rendered exactly once during startup, the startup trace
ends with that render followed by a 3-unit pause, the hostname screen also
sits in the rotation list, and the rotation loop is then entered. -/
theorem hostname_splash_before_loop (args : List String)
    (lr : Option DisplayConfig) (i2cd : Int)
    (h1 : (mainConfig lr).show_hostname = true) (h2 : 0 ≤ i2cd) :
    (setupEvents args lr i2cd).countP isHostnameRender = 1 ∧
    (setupEvents args lr i2cd).drop ((setupEvents args lr i2cd).length - 2) =
      [Event.lcdDisplayHostname, Event.sleepSecs 3] ∧
    3 ∈ buildOrder (mainConfig lr) ∧
    mainOutcome args lr i2cd =
      Outcome.looping
        { display_order := buildOrder (mainConfig lr), idx := 0 } := by
  have hneg : ¬ i2cd < 0 := not_lt.mpr h2
  have h3 : 3 ∈ buildOrder (mainConfig lr) := mem_buildOrder_hostname _ h1
  have hpos : 0 < (buildOrder (mainConfig lr)).length :=
    List.length_pos.mpr (List.ne_nil_of_mem h3)
  refine ⟨?_, ?_, h3, ?_⟩
  · rcases lr with _ | c
    · simp [setupEvents, warnEvents, mainConfig, hneg, isHostnameRender,
        List.countP_cons, List.countP_append]
    · simp only [mainConfig] at h1
      simp [setupEvents, warnEvents, mainConfig, hneg, h1, isHostnameRender,
        List.countP_cons, List.countP_append]
  · rcases lr with _ | c
    · simp [setupEvents, warnEvents, mainConfig, hneg]
    · simp only [mainConfig] at h1
      simp [setupEvents, warnEvents, mainConfig, hneg, h1]
  · simp [mainOutcome, hneg, hpos]

/-- Witness for C3 at the all-enabled configuration with a valid handle. -/
theorem hostname_splash_before_loop_witness :
    (mainConfig (some ⟨true, true, true, true⟩)).show_hostname = true ∧
    (0 : Int) ≤ 0 ∧
    (setupEvents [] (some ⟨true, true, true, true⟩) 0).countP
      isHostnameRender = 1 :=
  ⟨by decide, by decide,
   (hostname_splash_before_loop [] (some ⟨true, true, true, true⟩) 0
     (by decide) (by decide)).1⟩

/-- Claim C4: when the configuration load fails, the effective configuration
has all four flags true, the warning is emitted exactly once, and the
rotation list is the all-enabled list [0, 1, 2, 3]. -/
theorem config_failure_defaults (args : List String) (i2cd : Int) :
    mainConfig none =
      { show_temperature := true, show_cpu_memory := true,
        show_sd_memory := true, show_hostname := true } ∧
    (setupEvents args none i2cd).countP isWarn = 1 ∧
    buildOrder (mainConfig none) = [0, 1, 2, 3] := by
  refine ⟨rfl, ?_, by decide⟩
  by_cases hi : i2cd < 0 <;>
    simp [setupEvents, warnEvents, mainConfig, hi, isWarn,
      List.countP_cons, List.countP_append]

/-- Claim C5: every terminating path of `main` exits with code 0; in
particular, on I2C-open failure the error line is printed and the process
exits with the same success status 0 as a normal exit. -/
theorem exit_codes_all_zero (args : List String) (lr : Option DisplayConfig)
    (i2cd : Int) (code : Int)
    (h : mainOutcome args lr i2cd = Outcome.exited code) :
    code = 0 ∧
    (i2cd < 0 →
      Event.printI2cError ∈ setupEvents args lr i2cd ∧
      mainOutcome args lr i2cd = Outcome.exited 0) := by
  constructor
  · unfold mainOutcome at h
    split_ifs at h <;> injection h with h0 <;> omega
  · intro hi
    constructor
    · simp [setupEvents, hi]
    · simp [mainOutcome, hi]

/-- Witness for C5 at an invalid I2C handle. -/
theorem exit_codes_all_zero_witness :
    mainOutcome [] (some ⟨true, true, true, true⟩) (-1) =
      Outcome.exited 0 ∧
    ((0 : Int) = 0 ∧
     ((-1 : Int) < 0 →
       Event.printI2cError ∈
         setupEvents [] (some ⟨true, true, true, true⟩) (-1) ∧
       mainOutcome [] (some ⟨true, true, true, true⟩) (-1) =
         Outcome.exited 0)) :=
  ⟨by decide,
   exit_codes_all_zero [] (some ⟨true, true, true, true⟩) (-1) 0 (by decide)⟩

/-- Claim C6: when all four flags are false and the I2C device opened, the
startup performs the one-shot IP resolution, makes no rendering call at all,
and the process exits without entering the rotation loop. -/
theorem all_flags_false_no_render (args : List String)
    (lr : Option DisplayConfig) (i2cd : Int)
    (h1 : mainConfig lr =
      { show_temperature := false, show_cpu_memory := false,
        show_sd_memory := false, show_hostname := false })
    (h2 : 0 ≤ i2cd) :
    Event.firstGetIp ∈ setupEvents args lr i2cd ∧
    (setupEvents args lr i2cd).countP isRenderCall = 0 ∧
    mainOutcome args lr i2cd = Outcome.exited 0 := by
  have hneg : ¬ i2cd < 0 := not_lt.mpr h2
  rcases lr with _ | c
  · exact absurd h1 (by decide)
  · have hc : c =
        { show_temperature := false, show_cpu_memory := false,
          show_sd_memory := false, show_hostname := false } := h1
    subst hc
    refine ⟨?_, ?_, ?_⟩ <;>
      simp [setupEvents, warnEvents, mainConfig, mainOutcome, buildOrder,
        hneg, isRenderCall, List.countP_cons, List.countP_append]

/-- Witness for C6 at the all-disabled configuration with a valid handle. -/
theorem all_flags_false_no_render_witness :
    mainConfig (some ⟨false, false, false, false⟩) =
      ⟨false, false, false, false⟩ ∧
    (0 : Int) ≤ 0 ∧
    (Event.firstGetIp ∈
       setupEvents [] (some ⟨false, false, false, false⟩) 0 ∧
     (setupEvents [] (some ⟨false, false, false, false⟩) 0).countP
       isRenderCall = 0 ∧
     mainOutcome [] (some ⟨false, false, false, false⟩) 0 =
       Outcome.exited 0) :=
  ⟨by decide, by decide,
   all_flags_false_no_render [] (some ⟨false, false, false, false⟩) 0
     (by decide) (by decide)⟩

/-- Claim C7 counterexample: at a concrete input, the driver-initialization
call `ssd1306_begin` does not precede the configuration load in the startup
trace — the claim's "initialize the display driver, then load the
configuration" order is false for this program. -/
theorem startup_order_counterexample :
    ¬ ((setupEvents [] (some ⟨true, true, true, true⟩) 0).findIdx
         isSsdBegin <
       (setupEvents [] (some ⟨true, true, true, true⟩) 0).findIdx
         isLoadConfig) := by
  decide

/-- Claim C7 (amended): the startup sequence loads the configuration first
(at trace position 0, with the rotation list built from it), then
initializes the display driver, then — when the hostname flag is set and
the device opened — shows the hostname splash, and then enters the rotation
loop when the rotation list is non-empty. -/
theorem startup_order_amended (args : List String)
    (lr : Option DisplayConfig) (i2cd : Int) :
    (setupEvents args lr i2cd).findIdx isLoadConfig = 0 ∧
    (setupEvents args lr i2cd).findIdx isLoadConfig <
      (setupEvents args lr i2cd).findIdx isSsdBegin ∧
    ((mainConfig lr).show_hostname = true → 0 ≤ i2cd →
      (setupEvents args lr i2cd).findIdx isSsdBegin <
        (setupEvents args lr i2cd).findIdx isHostnameRender) ∧
    (0 ≤ i2cd → 0 < (buildOrder (mainConfig lr)).length →
      mainOutcome args lr i2cd =
        Outcome.looping
          { display_order := buildOrder (mainConfig lr), idx := 0 }) := by
  refine ⟨?_, ?_, ?_, ?_⟩
  · simp [setupEvents, List.findIdx_cons, isLoadConfig]
  · rcases lr with _ | c <;>
      simp [setupEvents, warnEvents, List.findIdx_cons, isLoadConfig,
        isSsdBegin, isWarn]
  · intro h1 h2
    have hneg : ¬ i2cd < 0 := not_lt.mpr h2
    rcases lr with _ | c <;>
      simp [setupEvents, warnEvents, mainConfig, hneg, h1,
        List.findIdx_cons, isLoadConfig, isSsdBegin, isWarn,
        isHostnameRender]
  · intro h2 hpos
    simp [mainOutcome, not_lt.mpr h2, hpos]
